import Mathlib

/-!
Verification of the response-normalization and model-coercion layer of a
Signal Messenger REST client. The definitions below are a shallow embedding
of the Python source: JSON payloads become an inductive `Json` type, the
per-module unwrapping pattern becomes `normalizeResponse`, and the pydantic
model classes (`Group`, `GroupMember`, `Device`, `LoggingConfig`) become
validation functions over string-keyed records that mirror pydantic v2 lax
validation (required vs defaulted fields, lax int and bool coercion,
string-enum membership checks, extra keys preserved).
-/

namespace SignalMessenger

/-- A decoded JSON value. Numbers are modelled as integers; no claim under
consideration involves fractional values. -/
inductive Json where
  | null : Json
  | bool : Bool → Json
  | num : Int → Json
  | str : String → Json
  | arr : List Json → Json
  | obj : List (String × Json) → Json

/-- A string-keyed record, the decoded form of a Python dict. -/
abbrev Obj := List (String × Json)

/-- First value stored under a key, the lookup a Python dict performs. -/
def findVal : Obj → String → Option Json
  | [], _ => none
  | (k, v) :: rest, key => if k = key then some v else findVal rest key

/-- The response-unwrapping step shared by get_groups, get_receipts,
get_linked_devices, get_attachments and the search functions: a dict that
contains the container key yields the value stored under it verbatim, a
list yields itself, and anything else is wrapped into a one-element list. -/
def normalizeResponse (response : Json) (key : String) : Json :=
  match response with
  | .obj kvs =>
    match findVal kvs key with
    | some v => v
    | none => .arr [response]
  | .arr xs => .arr xs
  | other => .arr [other]

/-- Normalization when the operation has no container key: only the
array and fallthrough branches of the unwrapping pattern can fire, so a
list is kept and anything else becomes a one-element list. -/
def normalizeNoKey (payload : Json) : Json :=
  match payload with
  | .arr xs => .arr xs
  | other => .arr [other]

/-- Python iteration over the unwrapped value: a list yields its elements,
a dict yields its keys, a string yields its characters, and scalars raise
a TypeError. -/
def pyIter : Json → Except String (List Json)
  | .arr xs => .ok xs
  | .obj kvs => .ok (kvs.map (fun p => Json.str p.1))
  | .str s => .ok (s.data.map (fun c => Json.str (String.mk [c])))
  | _ => .error ("object is not iterable")

mutual

/-- Python repr of a JSON value, used by str() on lists and dicts. -/
def pyRepr : Json → String
  | .null => "None"
  | .bool true => "True"
  | .bool false => "False"
  | .num n => toString n
  | .str s => "\x27" ++ s ++ "\x27"
  | .arr xs => "[" ++ pyReprItems xs ++ "]"
  | .obj kvs => "\x7b" ++ pyReprPairs kvs ++ "\x7d"

/-- Comma-separated reprs of list items. -/
def pyReprItems : List Json → String
  | [] => ""
  | [x] => pyRepr x
  | x :: y :: xs => pyRepr x ++ ", " ++ pyReprItems (y :: xs)

/-- Comma-separated reprs of dict entries. -/
def pyReprPairs : List (String × Json) → String
  | [] => ""
  | [(k, v)] => "\x27" ++ k ++ "\x27: " ++ pyRepr v
  | (k, v) :: y :: xs => "\x27" ++ k ++ "\x27: " ++ pyRepr v ++ ", " ++ pyReprPairs (y :: xs)

end

/-- Python str() of a JSON value. -/
def pyStr : Json → String
  | .null => "None"
  | .bool true => "True"
  | .bool false => "False"
  | .num n => toString n
  | .str s => s
  | .arr xs => pyRepr (.arr xs)
  | .obj kvs => pyRepr (.obj kvs)

/-- Truth of whether an Except value carries a success. -/
def resultOk {ε α : Type} : Except ε α → Bool
  | .ok _ => true
  | .error _ => false

/-! Field validators, mirroring pydantic v2 lax validation. -/

/-- Digits of a decimal number read into a Nat; empty or non-digit input
is rejected. -/
def digitsToNat (cs : List Char) : Option Nat :=
  match cs with
  | [] => none
  | _ =>
    cs.foldl
      (fun acc c =>
        match acc with
        | none => none
        | some n => if c.isDigit then some (n * 10 + (c.toNat - 48)) else none)
      (some 0)

/-- ASCII lowercasing of one character. -/
def pyLowerChar (c : Char) : Char :=
  if 65 ≤ c.toNat ∧ c.toNat ≤ 90 then Char.ofNat (c.toNat + 32) else c

/-- ASCII lowercasing of a string, the case folding pydantic applies to
candidate boolean strings. -/
def pyLower (s : String) : String := String.mk (s.data.map pyLowerChar)

/-- Whitespace recognised when stripping a numeric string. -/
def isSpaceChar (c : Char) : Bool := c == ' ' || c == '\t' || c == '\n' || c == '\r'

/-- Surrounding whitespace removal, the stripping pydantic applies to
candidate numeric strings. -/
def pyStrip (s : String) : String :=
  String.mk (((s.data.dropWhile isSpaceChar).reverse.dropWhile isSpaceChar).reverse)

/-- Integer parse of a string as pydantic performs it for int fields:
surrounding whitespace stripped, optional sign, decimal digits. -/
def parsePyInt (s : String) : Option Int :=
  match (pyStrip s).data with
  | [] => none
  | c :: rest =>
    if c = '-' then (digitsToNat rest).map (fun n => -(Int.ofNat n))
    else if c = '+' then (digitsToNat rest).map Int.ofNat
    else (digitsToNat (c :: rest)).map Int.ofNat

/-- Boolean read of a string as pydantic performs it for bool fields. -/
def pyBoolOfString (s : String) : Option Bool :=
  let t := pyLower s
  if t = "true" ∨ t = "t" ∨ t = "yes" ∨ t = "y" ∨ t = "on" ∨ t = "1" then some true
  else if t = "false" ∨ t = "f" ∨ t = "no" ∨ t = "n" ∨ t = "off" ∨ t = "0" then some false
  else none

/-- Validator for a required str field: only a JSON string is accepted. -/
def asStr : Json → Except String String
  | .str s => .ok s
  | _ => .error ("string expected")

/-- Validator for an Optional str field. -/
def asOptStr : Json → Except String (Option String)
  | .null => .ok none
  | .str s => .ok (some s)
  | _ => .error ("string or null expected")

/-- Validator for a required int field: accepts a JSON integer or a numeric
string (lax coercion); bools and everything else are rejected. -/
def asInt : Json → Except String Int
  | .num n => .ok n
  | .str s =>
    match parsePyInt s with
    | some n => .ok n
    | none => .error ("integer expected")
  | _ => .error ("integer expected")

/-- Validator for an Optional int field. -/
def asOptInt : Json → Except String (Option Int)
  | .null => .ok none
  | .num n => .ok (some n)
  | .str s =>
    match parsePyInt s with
    | some n => .ok (some n)
    | none => .error ("integer or null expected")
  | _ => .error ("integer or null expected")

/-- Validator for an Optional bool field: accepts a JSON bool, the
integers 0 and 1, and the recognised boolean strings. -/
def asOptBool : Json → Except String (Option Bool)
  | .null => .ok none
  | .bool b => .ok (some b)
  | .num n =>
    if n = 0 then .ok (some false)
    else if n = 1 then .ok (some true)
    else .error ("bool expected")
  | .str s =>
    match pyBoolOfString s with
    | some b => .ok (some b)
    | none => .error ("bool expected")
  | _ => .error ("bool expected")

/-- Validator for an Optional field over a string-valued enum: a string is
accepted exactly when it equals a member value; null passes as none. -/
def asOptEnum (members : List String) : Json → Except String (Option String)
  | .null => .ok none
  | .str s => if members.contains s then .ok (some s) else .error ("enum member expected")
  | _ => .error ("enum member expected")

/-- Shape check for ISO-formatted date strings. Modelled: pydantic datetime
parsing abridged to a YYYY-MM-DD digit-and-dash prefix check; no claim
exercises datetime fields. -/
def isIsoDateStr (s : String) : Bool :=
  match s.data with
  | y1 :: y2 :: y3 :: y4 :: h1 :: m1 :: m2 :: h2 :: d1 :: d2 :: _ =>
    y1.isDigit && y2.isDigit && y3.isDigit && y4.isDigit && (h1 == '-') &&
      m1.isDigit && m2.isDigit && (h2 == '-') && d1.isDigit && d2.isDigit
  | _ => false

/-- Validator for an Optional datetime field: accepts null, an epoch
number, or an ISO-formatted string, kept verbatim. -/
def asOptDT : Json → Except String (Option Json)
  | .null => .ok none
  | .num n => .ok (some (.num n))
  | .str s => if isIsoDateStr s then .ok (some (.str s)) else .error ("datetime expected")
  | _ => .error ("datetime expected")

/-- Value stored under a declared field with a default: an absent key
yields the default, a present value is validated. -/
def fieldD {α : Type} (kvs : Obj) (name : String) (dflt : α)
    (f : Json → Except String α) : Except String α :=
  match findVal kvs name with
  | none => .ok dflt
  | some j => f j

/-- Value stored under a required declared field: an absent key is a
validation error. -/
def fieldR {α : Type} (kvs : Obj) (name : String)
    (f : Json → Except String α) : Except String α :=
  match findVal kvs name with
  | none => .error (name ++ " field required")
  | some j => f j

/-- Keys of a record not declared on the model, preserved verbatim by the
extra-allow configuration. -/
def extrasOf (kvs : Obj) (declared : List String) : Obj :=
  kvs.filter (fun p => !(declared.contains p.1))

/-! Entity models, one validation function per pydantic class used by the
claims under consideration. -/

/-- Member values of the GroupRole enum. -/
def groupRoles : List String := ["ADMINISTRATOR", "DEFAULT"]

/-- Declared field names of the GroupMember model. -/
def groupMemberFields : List String := ["uuid", "number", "role"]

/-- A validated GroupMember: every declared field plus the extra bag. -/
structure GroupMember where
  uuid : Option String
  number : Option String
  role : Option String
  extra : Obj

/-- Validation of one GroupMember from a JSON value: pydantic accepts a
dict and validates each declared field; role defaults to DEFAULT when the
key is absent, and unknown keys are preserved in the extra bag. -/
def GroupMember.fromJson : Json → Except String GroupMember
  | .obj kvs => do
    let uuid ← fieldD kvs ("uuid") none asOptStr
    let number ← fieldD kvs ("number") none asOptStr
    let role ← fieldD kvs ("role") (some ("DEFAULT")) (asOptEnum groupRoles)
    .ok { uuid := uuid, number := number, role := role,
          extra := extrasOf kvs groupMemberFields }
  | _ => .error ("dict expected for GroupMember")

/-- Elementwise validation of a member list, aborting at the first
element that fails. -/
def memberList : List Json → Except String (List GroupMember)
  | [] => .ok []
  | j :: js => do
    let m ← GroupMember.fromJson j
    let ms ← memberList js
    .ok (m :: ms)

/-- Validator for a List[GroupMember] field: the value must be a list and
every element must validate. -/
def asMemberList : Json → Except String (List GroupMember)
  | .arr xs => memberList xs
  | _ => .error ("list expected")

/-- Declared field names of the Group model. -/
def groupFields : List String :=
  ["id", "internal_id", "name", "description", "avatar", "members",
   "pending_members", "requesting_members", "admins", "active", "blocked",
   "permission_add_member", "permission_edit_details",
   "permission_send_message", "link", "message_expiration_time"]

/-- A validated Group: every declared field plus the extra bag. -/
structure Group where
  id : String
  internal_id : Option String
  name : Option String
  description : Option String
  avatar : Option String
  members : List GroupMember
  pending_members : List GroupMember
  requesting_members : List GroupMember
  admins : List GroupMember
  active : Option Bool
  blocked : Option Bool
  permission_add_member : Option String
  permission_edit_details : Option String
  permission_send_message : Option String
  link : Option String
  message_expiration_time : Option Int
  extra : Obj

/-- Validation performed by Group(**record): id is required, every other
declared field defaults when absent, a present value that fails its field
validator makes the whole construction fail, and unknown keys are
preserved in the extra bag. -/
def Group.fromObj (kvs : Obj) : Except String Group := do
  let id ← fieldR kvs ("id") asStr
  let internal_id ← fieldD kvs ("internal_id") none asOptStr
  let name ← fieldD kvs ("name") none asOptStr
  let description ← fieldD kvs ("description") none asOptStr
  let avatar ← fieldD kvs ("avatar") none asOptStr
  let members ← fieldD kvs ("members") [] asMemberList
  let pending_members ← fieldD kvs ("pending_members") [] asMemberList
  let requesting_members ← fieldD kvs ("requesting_members") [] asMemberList
  let admins ← fieldD kvs ("admins") [] asMemberList
  let active ← fieldD kvs ("active") none asOptBool
  let blocked ← fieldD kvs ("blocked") none asOptBool
  let permission_add_member ← fieldD kvs ("permission_add_member") none asOptStr
  let permission_edit_details ← fieldD kvs ("permission_edit_details") none asOptStr
  let permission_send_message ← fieldD kvs ("permission_send_message") none asOptStr
  let link ← fieldD kvs ("link") none asOptStr
  let message_expiration_time ← fieldD kvs ("message_expiration_time") none asOptInt
  .ok { id := id, internal_id := internal_id, name := name,
        description := description, avatar := avatar, members := members,
        pending_members := pending_members,
        requesting_members := requesting_members, admins := admins,
        active := active, blocked := blocked,
        permission_add_member := permission_add_member,
        permission_edit_details := permission_edit_details,
        permission_send_message := permission_send_message, link := link,
        message_expiration_time := message_expiration_time,
        extra := extrasOf kvs groupFields }

/-- Member values of the DeviceType enum. -/
def deviceTypes : List String := ["mobile", "desktop", "unknown"]

/-- Declared field names of the Device model. -/
def deviceFields : List String := ["id", "name", "created", "last_seen", "type"]

/-- A validated Device: every declared field plus the extra bag. -/
structure Device where
  id : Int
  name : Option String
  created : Option Json
  last_seen : Option Json
  type : Option String
  extra : Obj

/-- Validation performed by Device(**record): id is a required int, type
defaults to the unknown member when absent, and unknown keys are preserved
in the extra bag. -/
def Device.fromObj (kvs : Obj) : Except String Device := do
  let id ← fieldR kvs ("id") asInt
  let name ← fieldD kvs ("name") none asOptStr
  let created ← fieldD kvs ("created") none asOptDT
  let last_seen ← fieldD kvs ("last_seen") none asOptDT
  let type ← fieldD kvs ("type") (some ("unknown")) (asOptEnum deviceTypes)
  .ok { id := id, name := name, created := created, last_seen := last_seen,
        type := type, extra := extrasOf kvs deviceFields }

/-- A validated LoggingConfig; both cased fields of the source are kept. -/
structure LoggingConfig where
  level : String
  Level : String

/-- Construction of LoggingConfig: pydantic validates both str fields with
default empty string, then the post-init hook copies Level into level
exactly when level is empty and Level is non-empty. Extra keys are ignored
by the default model configuration. -/
def LoggingConfig.fromObj (kvs : Obj) : Except String LoggingConfig := do
  let lv ← fieldD kvs ("level") "" asStr
  let cap ← fieldD kvs ("Level") "" asStr
  let lv := if lv = "" ∧ cap ≠ "" then cap else lv
  .ok { level := lv, Level := cap }

/-! The get_groups pipeline after the HTTP request. -/

/-- Coercion of one unwrapped item in get_groups: a dict is validated as a
Group, and any other value is coerced as Group(id=str(item)). -/
def coerceGroupItem (j : Json) : Except String Group :=
  match j with
  | .obj kvs => Group.fromObj kvs
  | other => Group.fromObj [("id", .str (pyStr other))]

/-- Sequential coercion of the unwrapped items; the loop aborts at the
first record whose validation raises. -/
def coerceGroupList : List Json → Except String (List Group)
  | [] => .ok []
  | j :: js => do
    let g ← coerceGroupItem j
    let gs ← coerceGroupList js
    .ok (g :: gs)

/-- The get_groups pipeline applied to a decoded response: unwrap under
the container key groups, iterate the result, and coerce each item. -/
def getGroups (response : Json) : Except String (List Group) := do
  let items ← pyIter (normalizeResponse response ("groups"))
  coerceGroupList items

/-! The search_all result assembly. -/

/-- The three-key dictionary search_all returns. -/
structure SearchAllResult where
  messages : Json
  contacts : Json
  groups : Json

/-- The search_all result: exactly the keys messages, contacts and groups,
each taken verbatim from the payload when the payload is a dict containing
the key, and an empty list otherwise. -/
def searchAll (response : Json) : SearchAllResult :=
  match response with
  | .obj kvs =>
    { messages := (findVal kvs ("messages")).getD (.arr [])
      contacts := (findVal kvs ("contacts")).getD (.arr [])
      groups := (findVal kvs ("groups")).getD (.arr []) }
  | _ => { messages := .arr [], contacts := .arr [], groups := .arr [] }

/-! The request executor. -/

/-- Typed failures of the request executor. -/
inductive ApiFailure where
  | remote : Nat → String → ApiFailure
  | malformed : ApiFailure

/-- Modelled from the spec: the error-message extraction of the request
executor in signal_messenger/utils.py, which is absent from the sources;
per spec 4.1 and 7 the message is best-effort extracted from the error
field of the decoded body, with a generic placeholder otherwise. -/
def extractErrorMessage (body : Option Json) : String :=
  match body with
  | some (.obj kvs) =>
    match findVal kvs ("error") with
    | some (.str s) => s
    | _ => "Unknown error"
  | _ => "Unknown error"

/-- Modelled from the spec: the status classification of make_request and
handle_response in signal_messenger/utils.py, absent from the sources; per
spec 4.1 and 7, a 2xx status returns the decoded body, a 2xx body that
cannot be decoded is MalformedResponse, and a non-2xx status fails with
RemoteError carrying the status and the extracted message. The body
argument is none when the body cannot be decoded as JSON. -/
def handleResponse (status : Nat) (body : Option Json) : Except ApiFailure Json :=
  if 200 ≤ status ∧ status < 300 then
    match body with
    | some j => .ok j
    | none => .error .malformed
  else
    .error (.remote status (extractErrorMessage body))

/-! Helper lemmas shared by the claim theorems. -/

/-- Lookup misses a record when no entry carries the key. -/
theorem findVal_eq_none : ∀ (kvs : Obj) (nm : String),
    (∀ p ∈ kvs, p.1 ≠ nm) → findVal kvs nm = none
  | [], _, _ => rfl
  | (k, v) :: rest, nm, h => by
    have hk : k ≠ nm := h (k, v) (List.mem_cons_self _ _)
    simp only [findVal, if_neg hk]
    exact findVal_eq_none rest nm (fun p hp => h p (List.mem_cons_of_mem _ hp))

/-- The extra bag keeps a record whole when none of its keys is declared. -/
theorem extrasOf_self : ∀ (kvs : Obj) (declared : List String),
    (∀ p ∈ kvs, declared.contains p.1 = false) → extrasOf kvs declared = kvs
  | [], _, _ => rfl
  | p :: rest, declared, h => by
    have hp : declared.contains p.1 = false := h p (List.mem_cons_self _ _)
    simp only [extrasOf, List.filter_cons, hp, Bool.not_false, if_pos]
    exact congrArg (p :: ·) (extrasOf_self rest declared
      (fun q hq => h q (List.mem_cons_of_mem _ hq)))

end SignalMessenger

open SignalMessenger

/-! Claim theorems. -/

/-- C1 counterexample: unwrapping a payload whose container key holds a
nested object does not agree with normalizing that object directly with no
key; the code uses the nested value verbatim instead of re-classifying it,
so the nested object is not turned into a one-element sequence. -/
theorem c1_counterexample :
    normalizeResponse (.obj [("groups", .obj [("id", .str "g1")])]) ("groups") ≠
      normalizeNoKey (.obj [("id", .str "g1")]) :=
  fun h => Json.noConfusion h

/-- C1 amended: for a JSON object payload containing the container key,
unwrapping yields the nested value verbatim, and it agrees with
normalizing the nested value directly with no key exactly when the nested
value is a JSON array; a nested object or scalar is not re-classified. -/
theorem c1_unwrap_verbatim (kvs : Obj) (key : String) (v : Json)
    (h : findVal kvs key = some v) :
    normalizeResponse (.obj kvs) key = v ∧
      (normalizeResponse (.obj kvs) key = normalizeNoKey v ↔ ∃ xs, v = .arr xs) := by
  have h1 : normalizeResponse (.obj kvs) key = v := by simp [normalizeResponse, h]
  refine ⟨h1, ?_⟩
  rw [h1]
  cases v with
  | arr xs => exact iff_of_true rfl ⟨xs, rfl⟩
  | null => simp [normalizeNoKey]
  | bool b => simp [normalizeNoKey]
  | num n => simp [normalizeNoKey]
  | str s => simp [normalizeNoKey]
  | obj o => simp [normalizeNoKey]

/-- C1 witness: the amended theorem applied to a payload wrapping an empty
array under the key groups. -/
theorem c1_witness :
    normalizeResponse (.obj [("groups", .arr [])]) ("groups") = .arr [] :=
  (c1_unwrap_verbatim [("groups", .arr [])] ("groups") (.arr []) rfl).1

/-- C2 counterexample: coercion is not total — the empty record has no id
key, the id field of Group is required, and construction fails. -/
theorem c2_counterexample : resultOk (Group.fromObj []) = false := rfl

/-- C2 amended: coercion fails on a record missing the required id field,
but for a record carrying a string id together with arbitrarily many keys
absent from the entity descriptor, construction succeeds and every unknown
key is preserved unchanged in the extension bag. -/
theorem c2_unknown_keys_preserved (s : String) (kvs : Obj)
    (h : ∀ p ∈ kvs, groupFields.contains p.1 = false) :
    Group.fromObj (("id", Json.str s) :: kvs) =
      .ok { id := s, internal_id := none, name := none, description := none,
            avatar := none, members := [], pending_members := [],
            requesting_members := [], admins := [], active := none,
            blocked := none, permission_add_member := none,
            permission_edit_details := none, permission_send_message := none,
            link := none, message_expiration_time := none, extra := kvs } := by
  have hnone : ∀ nm : String, groupFields.contains nm = true → findVal kvs nm = none := by
    intro nm hnm
    apply findVal_eq_none
    intro p hp hEq
    have hc := h p hp
    rw [hEq, hnm] at hc
    exact Bool.noConfusion hc
  have hex : extrasOf (("id", Json.str s) :: kvs) groupFields = kvs := by
    have h0 : extrasOf (("id", Json.str s) :: kvs) groupFields =
        extrasOf kvs groupFields := rfl
    rw [h0]
    exact extrasOf_self kvs groupFields h
  simp [Group.fromObj, fieldR, fieldD, findVal, asStr, hex,
        hnone ("internal_id") rfl, hnone ("name") rfl,
        hnone ("description") rfl, hnone ("avatar") rfl,
        hnone ("members") rfl, hnone ("pending_members") rfl,
        hnone ("requesting_members") rfl, hnone ("admins") rfl,
        hnone ("active") rfl, hnone ("blocked") rfl,
        hnone ("permission_add_member") rfl,
        hnone ("permission_edit_details") rfl,
        hnone ("permission_send_message") rfl, hnone ("link") rfl,
        hnone ("message_expiration_time") rfl]
  rfl

/-- C2 witness: the amended theorem applied to a record with one unknown
key. -/
theorem c2_witness :
    Group.fromObj [("id", Json.str "g1"), ("server_only", Json.num 7)] =
      .ok { id := "g1", internal_id := none, name := none, description := none,
            avatar := none, members := [], pending_members := [],
            requesting_members := [], admins := [], active := none,
            blocked := none, permission_add_member := none,
            permission_edit_details := none, permission_send_message := none,
            link := none, message_expiration_time := none,
            extra := [("server_only", Json.num 7)] } :=
  c2_unknown_keys_preserved ("g1") [("server_only", Json.num 7)]
    (by intro p hp; simp at hp; rw [hp]; rfl)

/-- C3 counterexample: a sequence containing one record whose active field
holds a non-boolean string aborts the whole get_groups coercion instead of
defaulting that field and returning both records. -/
theorem c3_counterexample :
    resultOk (getGroups (.arr [.obj [("id", .str "g1")],
      .obj [("id", .str "g2"), ("active", .str "zzz")]])) = false := rfl

/-- C3 amended: records are coerced in order and a record that fails type
coercion for a single field raises a validation error that aborts the
whole sequence; no per-field degradation occurs. -/
theorem c3_bad_record_aborts_sequence : ∀ (js : List Json) (j : Json), j ∈ js →
    resultOk (coerceGroupItem j) = false → resultOk (coerceGroupList js) = false := by
  intro js
  induction js with
  | nil => intro j hmem _; cases hmem
  | cons a rest ih =>
    intro j hmem hbad
    cases hmem with
    | head =>
      cases he : coerceGroupItem a with
      | error e => simp [coerceGroupList, he, resultOk, Bind.bind, Except.bind]
      | ok g => rw [he] at hbad; exact absurd hbad (by simp [resultOk])
    | tail _ hmem2 =>
      have hr := ih j hmem2 hbad
      cases he : coerceGroupItem a with
      | error e => simp [coerceGroupList, he, resultOk, Bind.bind, Except.bind]
      | ok g =>
        cases h2 : coerceGroupList rest with
        | error e2 => simp [coerceGroupList, he, h2, resultOk, Bind.bind, Except.bind]
        | ok gs => rw [h2] at hr; exact absurd hr (by simp [resultOk])

/-- C3 witness: the amended theorem applied to a one-record sequence whose
record fails bool coercion. -/
theorem c3_witness :
    resultOk (coerceGroupList [.obj [("id", .str "g2"), ("active", .str "zzz")]]) = false :=
  c3_bad_record_aborts_sequence _ _ (List.Mem.head _) rfl

/-- C4 counterexample: a string holding digits is coerced to a number — a
Device built from a record whose id field holds the string 5 succeeds with
the integer 5, contradicting native-types-only acceptance. -/
theorem c4_counterexample :
    Device.fromObj [("id", .str "5")] =
      .ok { id := 5, name := none, created := none, last_seen := none,
            type := some "unknown", extra := [] } := rfl

/-- C4 amended: int and bool fields additionally accept numeric and
boolean-like strings under lax coercion, and a genuine type mismatch
raises a validation error for the whole call instead of being treated as
field absent. -/
theorem c4_lax_coercion_and_hard_error :
    Group.fromObj [("id", .str "g"), ("message_expiration_time", .str "250")] =
      .ok { id := "g", internal_id := none, name := none, description := none,
            avatar := none, members := [], pending_members := [],
            requesting_members := [], admins := [], active := none,
            blocked := none, permission_add_member := none,
            permission_edit_details := none, permission_send_message := none,
            link := none, message_expiration_time := some 250, extra := [] } ∧
    resultOk (Group.fromObj [("id", .str "g"), ("active", .str "zzz")]) = false ∧
    (∀ b : Bool, Group.fromObj [("id", .str "g"), ("active", .bool b)] =
      .ok { id := "g", internal_id := none, name := none, description := none,
            avatar := none, members := [], pending_members := [],
            requesting_members := [], admins := [], active := some b,
            blocked := none, permission_add_member := none,
            permission_edit_details := none, permission_send_message := none,
            link := none, message_expiration_time := none, extra := [] }) ∧
    resultOk (Device.fromObj [("id", .str "abc")]) = false :=
  ⟨rfl, rfl, fun _ => rfl, rfl⟩

/-- C9 counterexample: a source value that matches no enum member fails
validation instead of resolving to the fallback member — a Device whose
type field holds tablet errors. -/
theorem c9_counterexample :
    resultOk (Device.fromObj [("id", .num 1), ("type", .str "tablet")]) = false := rfl

/-- C9 amended: a present enum value that matches no member raises a
validation error; only an absent enum field defaults to the documented
fallback member. -/
theorem c9_enum_mismatch_raises :
    (∀ s : String, s ≠ "ADMINISTRATOR" → s ≠ "DEFAULT" →
      resultOk (GroupMember.fromJson (.obj [("role", .str s)])) = false) ∧
    GroupMember.fromJson (.obj []) =
      .ok { uuid := none, number := none, role := some "DEFAULT", extra := [] } ∧
    Device.fromObj [("id", .num 1)] =
      .ok { id := 1, name := none, created := none, last_seen := none,
            type := some "unknown", extra := [] } := by
  refine ⟨?_, rfl, rfl⟩
  intro s h1 h2
  have hb1 : (s == "ADMINISTRATOR") = false := by simp [h1]
  have hb2 : (s == "DEFAULT") = false := by simp [h2]
  simp [GroupMember.fromJson, fieldD, findVal, asOptEnum, groupRoles,
        List.contains, List.elem, hb1, hb2, resultOk, Bind.bind, Except.bind]

/-- C9 witness: the amended theorem applied to the unknown role OWNER. -/
theorem c9_witness :
    resultOk (GroupMember.fromJson (.obj [("role", .str "OWNER")])) = false :=
  c9_enum_mismatch_raises.1 ("OWNER") (by decide) (by decide)

/-- C5: the request executor returns the decoded payload on any 2xx
status; every non-2xx status fails with an error carrying the status and
the message extracted from the error field of the body, or a generic
placeholder; a 404 body holding error not-found yields exactly
RemoteError 404 not-found. -/
theorem c5_request_executor :
    (∀ (status : Nat) (j : Json), 200 ≤ status → status < 300 →
      handleResponse status (some j) = .ok j) ∧
    (∀ (status : Nat) (body : Option Json), ¬(200 ≤ status ∧ status < 300) →
      handleResponse status body = .error (.remote status (extractErrorMessage body))) ∧
    handleResponse 404 (some (.obj [("error", .str "not found")])) =
      .error (.remote 404 "not found") := by
  refine ⟨?_, ?_, rfl⟩
  · intro status j h1 h2
    simp [handleResponse, h1, h2]
  · intro status body h
    simp [handleResponse, h]

/-- C5 witness: the executor applied at a 2xx and at the 404 scenario. -/
theorem c5_witness :
    handleResponse 200 (some .null) = .ok .null ∧
    handleResponse 404 (some (.obj [("error", .str "not found")])) =
      .error (.remote 404 "not found") :=
  ⟨c5_request_executor.1 200 .null (by decide) (by decide),
   c5_request_executor.2.1 404 (some (.obj [("error", .str "not found")]))
     (by decide) |>.trans rfl⟩

/-- C6: the dual-case fallback on LoggingConfig — the capitalized Level
populates the canonical level only when the canonical one is empty, and a
populated canonical value is never overwritten. -/
theorem c6_dual_case_fallback :
    LoggingConfig.fromObj [("Level", .str "info")] =
      .ok { level := "info", Level := "info" } ∧
    LoggingConfig.fromObj [("level", .str "debug"), ("Level", .str "info")] =
      .ok { level := "debug", Level := "info" } ∧
    (∀ a b : String, a ≠ "" →
      LoggingConfig.fromObj [("level", .str a), ("Level", .str b)] =
        .ok { level := a, Level := b }) := by
  refine ⟨rfl, rfl, ?_⟩
  intro a b ha
  simp [LoggingConfig.fromObj, fieldD, findVal, asStr, ha, Bind.bind, Except.bind]

/-- C6 witness: the fallback theorem applied at concrete non-empty level
values. -/
theorem c6_witness :
    LoggingConfig.fromObj [("level", .str "warn"), ("Level", .str "info")] =
      .ok { level := "warn", Level := "info" } :=
  c6_dual_case_fallback.2.2 ("warn") ("info") (by decide)

/-- C7: for every JSON array and every container key, normalization keeps
the array unchanged, and the concrete bare-array body produces the same
result through get_groups as its wrapped form. -/
theorem c7_array_bypasses_key :
    (∀ (xs : List Json) (key : String), normalizeResponse (.arr xs) key = .arr xs) ∧
    getGroups (.arr [.obj [("id", .str "g1")]]) =
      getGroups (.obj [("groups", .arr [.obj [("id", .str "g1")]])]) :=
  ⟨fun _ _ => rfl, rfl⟩

/-- C8: a JSON object without the container key normalizes to a
one-element sequence holding the object, and the concrete solo-group body
yields exactly one Group with id g1 and name Solo. -/
theorem c8_object_without_key :
    (∀ (kvs : Obj) (key : String), findVal kvs key = none →
      normalizeResponse (.obj kvs) key = .arr [.obj kvs]) ∧
    getGroups (.obj [("id", .str "g1"), ("name", .str "Solo")]) =
      .ok [{ id := "g1", internal_id := none, name := some "Solo",
             description := none, avatar := none, members := [],
             pending_members := [], requesting_members := [], admins := [],
             active := none, blocked := none, permission_add_member := none,
             permission_edit_details := none, permission_send_message := none,
             link := none, message_expiration_time := none, extra := [] }] := by
  refine ⟨?_, rfl⟩
  intro kvs key h
  simp [normalizeResponse, h]

/-- C8 witness: the normalization conjunct applied at a record without the
groups key. -/
theorem c8_witness :
    normalizeResponse (.obj [("name", .str "Solo")]) ("groups") =
      .arr [.obj [("name", .str "Solo")]] :=
  (c8_object_without_key.1 [("name", .str "Solo")] ("groups") rfl)

/-- C10: search_all returns the three fixed keys, each holding the
same-named field of an object payload when present and an empty list
otherwise; a non-object payload yields three empty lists. -/
theorem c10_search_all_shape :
    (∀ (kvs : Obj) (v : Json), findVal kvs ("messages") = some v →
      (searchAll (.obj kvs)).messages = v) ∧
    (∀ kvs : Obj, findVal kvs ("messages") = none →
      (searchAll (.obj kvs)).messages = .arr []) ∧
    (∀ (kvs : Obj) (v : Json), findVal kvs ("contacts") = some v →
      (searchAll (.obj kvs)).contacts = v) ∧
    (∀ kvs : Obj, findVal kvs ("contacts") = none →
      (searchAll (.obj kvs)).contacts = .arr []) ∧
    (∀ (kvs : Obj) (v : Json), findVal kvs ("groups") = some v →
      (searchAll (.obj kvs)).groups = v) ∧
    (∀ kvs : Obj, findVal kvs ("groups") = none →
      (searchAll (.obj kvs)).groups = .arr []) ∧
    (∀ j : Json, (∀ kvs : Obj, j ≠ .obj kvs) →
      searchAll j = { messages := .arr [], contacts := .arr [], groups := .arr [] }) := by
  refine ⟨?_, ?_, ?_, ?_, ?_, ?_, ?_⟩
  · intro kvs v h; simp [searchAll, h]
  · intro kvs h; simp [searchAll, h]
  · intro kvs v h; simp [searchAll, h]
  · intro kvs h; simp [searchAll, h]
  · intro kvs v h; simp [searchAll, h]
  · intro kvs h; simp [searchAll, h]
  · intro j hj
    cases j with
    | obj kvs => exact absurd rfl (hj kvs)
    | null => rfl
    | bool b => rfl
    | num n => rfl
    | str s => rfl
    | arr xs => rfl

/-- C10 witness: the field-copy conjunct applied at a payload carrying a
messages key. -/
theorem c10_witness :
    (searchAll (.obj [("messages", .arr [.str "m"])])).messages = .arr [.str "m"] :=
  c10_search_all_shape.1 [("messages", .arr [.str "m"])] (.arr [.str "m"]) rfl
